import Mathlib

/-!
Verification development for the llm-marketplace publishing service.

The definitions below are shallow embeddings of the TypeScript source:

* `PublishingService.publishService` and its helpers
  (`src/unnamed/part_003`, class `PublishingService`);
* the Temporal-style `PublishingWorkflow.execute` and `retryActivity`
  (`src/services/publishing/src/middleware/error.middleware.ts`);
* the service repository `create` / `update` / `search`
  (`src/unnamed/part_001`);
* the service controller endpoints `updateService` / `publishService`
  (`src/services/publishing/src/controllers/service.controller.ts`);
* the `TestOrchestrator`
  (`src/services/publishing/src/services/test-orchestrator.ts`).

External collaborators (service validator, policy engine, registry,
governance) whose implementations live behind mocked clients are modelled
as oracle inputs: a record of outcomes the pipeline consumes, with every
collaborator invocation recorded in an explicit effect trace.  Databases
are lists of rows threaded through each operation; the clock is an
explicit `now : Nat` parameter.
-/

/-- Service lifecycle status, from the `ServiceStatus` enum used throughout
the source (`pending_approval`, `active`, `deprecated`, `suspended`,
`retired`, `failed_validation`). -/
inductive ServiceStatus where
  | pendingApproval
  | active
  | deprecated
  | suspended
  | retired
  | failedValidation
deriving DecidableEq, Repr

/-- Modelled from the spec: the function `isValidStatusTransition` is
imported by `service.controller.ts` from `models/service.model`, a file the
repository snapshot does not contain.  This definition follows the status
state-machine table of the spec:
`pending_approval -> active | suspended | failed_validation`,
`active -> deprecated | suspended`, `deprecated -> retired`,
`suspended -> active | retired`, while `retired` and `failed_validation`
are terminal. -/
def isValidStatusTransition (src tgt : ServiceStatus) : Bool :=
  match src, tgt with
  | .pendingApproval, .active => true
  | .pendingApproval, .suspended => true
  | .pendingApproval, .failedValidation => true
  | .active, .deprecated => true
  | .active, .suspended => true
  | .deprecated, .retired => true
  | .suspended, .active => true
  | .suspended, .retired => true
  | _, _ => false

/-- Endpoint descriptor (`endpoint` field of a service): URL and
authentication mode. -/
structure Endpoint where
  url : String
  authentication : String
deriving DecidableEq, Repr

/-- Pricing descriptor; only the `model` discriminant is consumed by the
code under analysis. -/
structure Pricing where
  model : String
deriving DecidableEq, Repr

/-- SLA descriptor.  `availabilityTenths` represents the declared
availability percentage scaled by ten (the source compares the float
`99.9` against it; we carry tenths of a percent so `99.9` becomes `999`).
`maxLatency` is in milliseconds. -/
structure SLA where
  availabilityTenths : Nat
  maxLatency : Nat
  supportLevel : String
deriving DecidableEq, Repr

/-- Compliance descriptor: classification level, data-residency list and
certifications. -/
structure Compliance where
  level : String
  dataResidency : List String
  certifications : List String
deriving DecidableEq, Repr

/-- A provider-submitted service specification (the subset of
`Partial<Service>` the publishing pipeline reads). -/
structure ServiceSpec where
  name : String
  version : String
  description : String
  category : String
  tags : List String
  capabilities : List String
  endpoint : Endpoint
  pricing : Pricing
  sla : SLA
  compliance : Compliance
  hasOpenApiSpec : Bool
deriving DecidableEq, Repr

/-- A row of the `services` table, with the columns touched by the
repository layer (`part_001`) and by `PublishingService.saveService` /
`updateServiceStatus` (`part_003`). -/
structure ServiceRow where
  id : String
  registryId : String
  name : String
  version : String
  description : String
  providerId : String
  category : String
  tags : List String
  capabilities : List String
  endpoint : Endpoint
  pricing : Pricing
  sla : SLA
  compliance : Compliance
  status : ServiceStatus
  createdAt : Nat
  updatedAt : Nat
  publishedAt : Option Nat
  deprecatedAt : Option Nat
  suspensionReason : Option String
deriving DecidableEq, Repr

/-- The services table: a list of rows. -/
abbrev ServiceDb := List ServiceRow

/-- `SELECT * FROM services WHERE id = $1` (first matching row). -/
def findRowById (db : ServiceDb) (id : String) : Option ServiceRow :=
  db.find? (fun r => r.id == id)

/-- `findByNameAndVersion` of the repository (`part_001`): first row whose
`name` and `version` both match; no status filter appears in the SQL. -/
def findByNameAndVersion (db : ServiceDb) (name version : String) :
    Option ServiceRow :=
  db.find? (fun r => r.name == name && r.version == version)

/-- Decidable equality for `Except`, used to evaluate workflow outcomes on
concrete inputs. -/
instance {ε α : Type} [DecidableEq ε] [DecidableEq α] :
    DecidableEq (Except ε α) := fun x y =>
  match x, y with
  | .ok a, .ok b =>
    if h : a = b then .isTrue (by rw [h])
    else .isFalse (fun hc => by cases hc; exact h rfl)
  | .error a, .error b =>
    if h : a = b then .isTrue (by rw [h])
    else .isFalse (fun hc => by cases hc; exact h rfl)
  | .ok _, .error _ => .isFalse (fun hc => by cases hc)
  | .error _, .ok _ => .isFalse (fun hc => by cases hc)

section Retry

/-- Message built by `retryActivity` when every attempt failed:
`Activity failed after N retries: <last error message>` (a template
literal in the source; `lastError?.message` prints `undefined` when no
error was recorded, which only happens for a zero attempt budget). -/
def retryExhaustMsg (maxRetries : Nat) (lastErr : Option String) : String :=
  "Activity failed after " ++ toString maxRetries ++ " retries: " ++
    (match lastErr with
     | some e => e
     | none => "undefined")

/-- Result of `retryActivity`: the final outcome, the number of attempts
made, and the list of backoff delays (in seconds) slept between attempts. -/
structure RetryResult (α : Type) where
  result : Except String α
  attempts : Nat
  delays : List Nat
deriving Repr, DecidableEq

/-- Loop body of `PublishingWorkflow.retryActivity`
(`error.middleware.ts`): attempts are numbered from 1; `remaining` counts
the attempts still allowed (`maxRetries - attempt + 1` at every call, so
`remaining = 0` is the loop exit `attempt > maxRetries`).  A failed
attempt records the error, and if it was not the last allowed attempt the
loop sleeps `2 ^ (attempt - 1)` seconds
(`Math.pow(2, attempt - 1) * 1000` ms) before the next attempt; a
successful attempt returns immediately; exhausting the budget throws
`retryExhaustMsg`. -/
def retryGo {α : Type} (act : Nat → Except String α) (maxRetries : Nat) :
    (attempt remaining : Nat) → Option String → RetryResult α
  | attempt, 0, lastErr =>
    { result := .error (retryExhaustMsg maxRetries lastErr)
      attempts := attempt - 1
      delays := [] }
  | attempt, remaining + 1, _lastErr =>
    match act attempt with
    | .ok a => { result := .ok a, attempts := attempt, delays := [] }
    | .error e =>
      let rest := retryGo act maxRetries (attempt + 1) remaining (some e)
      { result := rest.result
        attempts := rest.attempts
        delays :=
          if attempt < maxRetries then 2 ^ (attempt - 1) :: rest.delays
          else rest.delays }

/-- `PublishingWorkflow.retryActivity(activity, maxRetries)`: run the
activity, retrying with exponential backoff, starting at attempt 1 with
the full budget remaining and no error recorded.  `act k` is the outcome
of the k-th attempt. -/
def retryActivity {α : Type} (act : Nat → Except String α)
    (maxRetries : Nat) : RetryResult α :=
  retryGo act maxRetries 1 maxRetries none

/-- Attempt budget used by `PublishingWorkflow.execute` for registry
registration (`retryActivity(registerWithRegistry, 5)`). -/
def registrationMaxAttempts : Nat := 5

/-- Attempt budget used by `PublishingWorkflow.execute` for each of the
three test-suite checks (`retryActivity(..., 3)`). -/
def testCheckMaxAttempts : Nat := 3

end Retry

section PublishingService

/-- Collaborator outcomes consumed by one `publishService` invocation:
the structural validation verdict (`ServiceValidator.validate`), the
OpenAPI verdict (`OpenAPIValidator.validate`), the policy verdict
(`PolicyEngineClient.validateService`) and the registry identifier
returned by `RegistryClient.registerService`. -/
structure PublishDeps where
  validationValid : Bool
  validationErrors : List String
  openApiValid : Bool
  openApiErrors : List String
  policyCompliant : Bool
  policyViolations : List String
  registryId : String
deriving DecidableEq, Repr

/-- Collaborator invocations made by `PublishingService` methods, in call
order. -/
inductive PubEffect where
  | trackValidationFailure (serviceId providerId : String)
  | registerService
  | saveService (serviceId : String)
  | updateStatusDb (serviceId : String) (status : ServiceStatus)
  | createApprovalWorkflow (serviceId : String)
  | cacheSet (serviceId : String)
  | trackServicePublished (serviceId : String)
  | notifyServicePublished (serviceId : String)
deriving DecidableEq, Repr

/-- Caller-facing result triple of `publishService`. -/
structure PublishResult where
  serviceId : String
  status : ServiceStatus
  message : String
deriving DecidableEq, Repr

/-- Full outcome of one `publishService` invocation: the result triple,
the collaborator effect trace, and the database after the call. -/
structure PublishRun where
  result : PublishResult
  effects : List PubEffect
  db : ServiceDb
deriving Repr

/-- `PublishingService.requiresManualApproval` (`part_003`, lines
609-622): approval is required for `confidential` or `restricted`
compliance level, or for `enterprise` SLA support level. -/
def requiresManualApproval (spec : ServiceSpec) : Bool :=
  if spec.compliance.level == "confidential" ||
      spec.compliance.level == "restricted" then
    true
  else if spec.sla.supportLevel == "enterprise" then
    true
  else
    false

/-- `PublishingService.saveService`: `INSERT ... ON CONFLICT (id) DO
UPDATE` keyed on the row id — replace the existing row with the same id,
otherwise append the new row. -/
def saveService (db : ServiceDb) (row : ServiceRow) : ServiceDb :=
  if (db.find? (fun r => r.id == row.id)).isSome then
    db.map (fun r => if r.id == row.id then row else r)
  else
    db ++ [row]

/-- `PublishingService.updateServiceStatus`: `UPDATE services SET status,
suspension_reason, updated_at = NOW() WHERE id = $3`.  The reason argument
is optional and stored as `NULL` when absent. -/
def updateServiceStatusDb (db : ServiceDb) (serviceId : String)
    (status : ServiceStatus) (reason : Option String) (now : Nat) :
    ServiceDb :=
  db.map (fun r =>
    if r.id == serviceId then
      { r with status := status, suspensionReason := reason,
               updatedAt := now }
    else r)

/-- `PublishingService.runAutomatedTests` (`part_003`): a mock that always
reports success. -/
def runAutomatedTests : Bool := true

/-- The in-memory `Service` object built at phase 5 of `publishService`:
status `pending_approval`, `createdAt`/`updatedAt`/`publishedAt` all set
to the current time. -/
def buildServiceRow (serviceId providerId : String) (spec : ServiceSpec)
    (registryId : String) (now : Nat) : ServiceRow :=
  { id := serviceId
    registryId := registryId
    name := spec.name
    version := spec.version
    description := spec.description
    providerId := providerId
    category := spec.category
    tags := spec.tags
    capabilities := spec.capabilities
    endpoint := spec.endpoint
    pricing := spec.pricing
    sla := spec.sla
    compliance := spec.compliance
    status := .pendingApproval
    createdAt := now
    updatedAt := now
    publishedAt := some now
    deprecatedAt := none
    suspensionReason := none }

/-- `PublishingService.publishService` (`part_003`, lines 68-253).
Phases, in program order: (1) structural validation — invalid returns
`failed_validation` after an analytics call; (2) OpenAPI validation when a
document was supplied — invalid returns `failed_validation`; (3) policy
compliance — non-compliant returns `suspended`; (4) registry
registration; (5) persist the record with status `pending_approval`;
(6) automated tests (the mock always passes; on failure the code would set
`failed_validation` and return without touching the registry); (7) when
`requiresManualApproval`, create a governance approval workflow and leave
the status `pending_approval`, otherwise set the status to `active`;
(8) cache; (9) analytics and governance notifications. -/
def publishService (deps : PublishDeps) (providerId serviceId : String)
    (spec : ServiceSpec) (db : ServiceDb) (now : Nat) : PublishRun :=
  -- Phase 1: Validation
  if !deps.validationValid then
    { result := { serviceId := serviceId, status := .failedValidation
                  message := "Validation failed: " ++
                    String.intercalate ", " deps.validationErrors }
      effects := [.trackValidationFailure serviceId providerId]
      db := db }
  -- Phase 2: OpenAPI Validation (if provided)
  else if spec.hasOpenApiSpec && !deps.openApiValid then
    { result := { serviceId := serviceId, status := .failedValidation
                  message := "OpenAPI validation failed: " ++
                    String.intercalate ", " deps.openApiErrors }
      effects := []
      db := db }
  -- Phase 3: Policy Compliance Check
  else if !deps.policyCompliant then
    { result := { serviceId := serviceId, status := .suspended
                  message := "Policy violations: " ++
                    String.intercalate ", " deps.policyViolations }
      effects := []
      db := db }
  else
    -- Phase 4: Registry Synchronization
    let registryId := deps.registryId
    -- Phase 5: Marketplace Publication
    let service := buildServiceRow serviceId providerId spec registryId now
    let db1 := saveService db service
    -- Phase 6: Automated Testing (mock, always passes)
    if !runAutomatedTests then
      { result := { serviceId := serviceId, status := .failedValidation
                    message := "Automated tests failed" }
        effects := [.registerService, .saveService serviceId,
                    .updateStatusDb serviceId .failedValidation]
        db := updateServiceStatusDb db1 serviceId .failedValidation none now }
    else
      -- Phase 7: Approval Workflow (if required)
      if requiresManualApproval spec then
        { result := { serviceId := serviceId, status := .pendingApproval
                      message :=
                        "Service published successfully and pending approval" }
          effects := [.registerService, .saveService serviceId,
                      .createApprovalWorkflow serviceId,
                      .cacheSet serviceId,
                      .trackServicePublished serviceId,
                      .notifyServicePublished serviceId]
          db := db1 }
      else
        { result := { serviceId := serviceId, status := .active
                      message :=
                        "Service published successfully and is now active" }
          effects := [.registerService, .saveService serviceId,
                      .updateStatusDb serviceId .active,
                      .cacheSet serviceId,
                      .trackServicePublished serviceId,
                      .notifyServicePublished serviceId]
          db := updateServiceStatusDb db1 serviceId .active none now }

/-- Number of registry-collaborator invocations in a `publishService`
effect trace (`RegistryClient.registerService` is the only registry call
on the publish path). -/
def registryCallCount (effects : List PubEffect) : Nat :=
  effects.countP (fun e =>
    match e with
    | .registerService => true
    | _ => false)

/-- Number of `GovernanceClient.createApprovalWorkflow` invocations in a
`publishService` effect trace. -/
def approvalWorkflowCount (effects : List PubEffect) : Nat :=
  effects.countP (fun e =>
    match e with
    | .createApprovalWorkflow _ => true
    | _ => false)

end PublishingService

section Workflow

/-- Attempt-indexed outcomes of the workflow activities
(`PublishingWorkflowActivities`).  In the source each activity is a mocked
collaborator call ("This would call the ...Client"); here the k-th attempt
of each retried activity is an oracle value `f k`, and the two approval
activities (not wrapped in `retryActivity`) are single outcomes.  The
logging-only activities (`updateServiceStatus`, `publishAnalyticsEvents`,
`notifyGovernanceDashboard`, `rollbackPublication`, `saveServiceToDatabase`
body) cannot throw in the source, but `saveServiceToDatabase` is still
wrapped in `retryActivity`, so it keeps an attempt-indexed oracle. -/
structure WfActs where
  validate : Nat → Except String Bool
  openApi : Nat → Except String Bool
  policy : Nat → Except String Bool
  register : Nat → Except String String
  save : Nat → Except String Unit
  test : Nat → Except String Bool
  security : Nat → Except String Bool
  benchmark : Nat → Except String Bool
  approvalCreate : Except String String
  waitApproval : Except String Bool

/-- Activity invocations recorded by `PublishingWorkflow.execute`, in call
order. -/
inductive WfEffect where
  | registerCall
  | saveDb
  | updateStatus (serviceId : String) (status : ServiceStatus)
  | createApproval (serviceId : String)
  | waitApproval (workflowId : String)
  | rollback (serviceId registryId : String)
  | publishEvents
  | notifyGovernance
deriving DecidableEq, Repr

/-- Final context of a workflow run: the registry id if registration
succeeded, the approval disposition, and whether the run returned
normally (`.ok`) or threw (`.error`). -/
structure WfContext where
  registryId : Option String
  approvalRequired : Bool
  approvalStatus : Option String
deriving DecidableEq, Repr

/-- Outcome of `PublishingWorkflow.execute`: the returned context or the
propagated error, plus the recorded effect trace (including the rollback
issued by the catch block when an error escapes after registration). -/
structure WfRun where
  outcome : Except String WfContext
  effects : List WfEffect
deriving Repr

/-- `PublishingWorkflow.requiresApproval` (`error.middleware.ts`, lines
545-551): `confidential` or `restricted` compliance level, or
`enterprise` support level. -/
def wfRequiresApproval (spec : ServiceSpec) : Bool :=
  spec.compliance.level == "confidential" ||
    spec.compliance.level == "restricted" ||
    spec.sla.supportLevel == "enterprise"

/-- The catch block of `PublishingWorkflow.execute`: when an error
escapes, a rollback is issued iff `context.registryId` was already set,
and the error is re-thrown. -/
def wfCatch (serviceId : String) (registryId : Option String)
    (effects : List WfEffect) (err : String) : WfRun :=
  match registryId with
  | some rid =>
    { outcome := .error err, effects := effects ++ [.rollback serviceId rid] }
  | none => { outcome := .error err, effects := effects }

/-- Steps 5-10 of `PublishingWorkflow.execute`, reached once registration
has succeeded and `context.registryId = rid` is set: every error thrown
from here on is rolled back by the catch block. -/
def executeAfterRegistration (acts : WfActs) (spec : ServiceSpec)
    (serviceId rid : String) : WfRun :=
  let eff0 : List WfEffect := [.registerCall]
  -- Step 6: Save to Database (retryActivity(_, 5))
  match (retryActivity acts.save 5).result with
  | .error e => wfCatch serviceId (some rid) (eff0 ++ [.saveDb]) e
  | .ok _ =>
    let eff1 := eff0 ++ [.saveDb]
    -- Step 7: Run Tests in Parallel (Promise.all of three retried
    -- checks; a rejection of any check rejects the join)
    match (retryActivity acts.test testCheckMaxAttempts).result,
          (retryActivity acts.security testCheckMaxAttempts).result,
          (retryActivity acts.benchmark testCheckMaxAttempts).result with
    | .error e, _, _ => wfCatch serviceId (some rid) eff1 e
    | _, .error e, _ => wfCatch serviceId (some rid) eff1 e
    | _, _, .error e => wfCatch serviceId (some rid) eff1 e
    | .ok testPassed, .ok securityPassed, .ok benchmarkPassed =>
      if !testPassed || !securityPassed || !benchmarkPassed then
        { outcome := .ok { registryId := some rid,
                           approvalRequired := false,
                           approvalStatus := none }
          effects :=
            eff1 ++ [.updateStatus serviceId .failedValidation] }
      else
        -- Step 8: Determine if Approval Required
        if wfRequiresApproval spec then
          match acts.approvalCreate with
          | .error e =>
            wfCatch serviceId (some rid)
              (eff1 ++ [.createApproval serviceId]) e
          | .ok wid =>
            let eff2 := eff1 ++ [.createApproval serviceId,
                                 .waitApproval wid]
            match acts.waitApproval with
            | .error e => wfCatch serviceId (some rid) eff2 e
            | .ok approved =>
              if !approved then
                { outcome := .ok { registryId := some rid,
                                   approvalRequired := true,
                                   approvalStatus := some "rejected" }
                  effects :=
                    eff2 ++ [.updateStatus serviceId .suspended] }
              else
                { outcome := .ok { registryId := some rid,
                                   approvalRequired := true,
                                   approvalStatus := some "approved" }
                  effects :=
                    eff2 ++ [.updateStatus serviceId .active,
                             .publishEvents, .notifyGovernance] }
        else
          { outcome := .ok { registryId := some rid,
                             approvalRequired := false,
                             approvalStatus := none }
            effects :=
              eff1 ++ [.updateStatus serviceId .active,
                       .publishEvents, .notifyGovernance] }

/-- `PublishingWorkflow.execute` (`error.middleware.ts`, lines 342-510).
Steps in program order: (1) validate spec via `retryActivity(_, 3)` —
invalid returns the context; (2) OpenAPI validation via
`retryActivity(_, 3)` when a document was supplied; (3) policy compliance
via `retryActivity(_, 3)` — non-compliant returns; (4) registration via
`retryActivity(_, 5)`, storing the registry id in the context;
(5)/(6) build the service object and save via `retryActivity(_, 5)`;
(7) the three test checks via `retryActivity(_, 3)` each, joined together
— if any category failed, the status is set to `failed_validation` and the
context is returned (no rollback on this path); (8) when approval is
required, create the approval workflow and wait (7-day timeout) — a
rejection sets `suspended` and returns; (9) set `active`; (10) publish
analytics and governance events.  Any thrown error lands in `wfCatch`,
which rolls back iff the registry id was already obtained. -/
def executeWorkflow (acts : WfActs) (spec : ServiceSpec)
    (serviceId _providerId : String) : WfRun :=
  -- Step 1: Validate Service Specification (with retry)
  match (retryActivity acts.validate 3).result with
  | .error e => wfCatch serviceId none [] e
  | .ok valid =>
    if !valid then
      { outcome := .ok { registryId := none, approvalRequired := false,
                         approvalStatus := none }
        effects := [] }
    else
      -- Step 2: Validate OpenAPI Spec (if provided)
      match
        (if spec.hasOpenApiSpec then (retryActivity acts.openApi 3).result
         else .ok true) with
      | .error e => wfCatch serviceId none [] e
      | .ok openApiOk =>
        if !openApiOk then
          { outcome := .ok { registryId := none, approvalRequired := false,
                             approvalStatus := none }
            effects := [] }
        else
          -- Step 3: Check Policy Compliance
          match (retryActivity acts.policy 3).result with
          | .error e => wfCatch serviceId none [] e
          | .ok compliant =>
            if !compliant then
              { outcome := .ok { registryId := none,
                                 approvalRequired := false,
                                 approvalStatus := none }
                effects := [] }
            else
              -- Step 4: Register with Registry
              match (retryActivity acts.register
                       registrationMaxAttempts).result with
              | .error e => wfCatch serviceId none [.registerCall] e
              | .ok rid =>
                executeAfterRegistration acts spec serviceId rid

/-- Number of `rollbackPublication` invocations in a workflow effect
trace. -/
def rollbackCount (effects : List WfEffect) : Nat :=
  effects.countP (fun e =>
    match e with
    | .rollback _ _ => true
    | _ => false)

end Workflow

section Repository

/-- Error taxonomy raised by the repository and controllers
(`common/errors`): `ConflictError`, `NotFoundError`, `DatabaseError`,
`ValidationError`, `AuthorizationError`. -/
inductive ApiError where
  | conflictError (msg : String)
  | notFoundError (resource id : String)
  | databaseError (msg : String)
  | validationError (msg : String)
  | authorizationError (msg : String)
deriving DecidableEq, Repr

/-- Input of repository `create` (`part_001`, lines 24-78): all service
fields except the id (generated by the database) and status (forced to
`pending_approval`). -/
structure CreateInput where
  registryId : String
  name : String
  version : String
  description : String
  category : String
  tags : List String
  capabilities : List String
  endpoint : Endpoint
  pricing : Pricing
  sla : SLA
  compliance : Compliance
deriving DecidableEq, Repr

/-- Repository `create` (`part_001`): reject with `ConflictError` when
`findByNameAndVersion` finds any existing row (no status filter — retired
rows conflict too); otherwise insert a fresh row with status
`pending_approval`.  The database-generated id and row timestamps are the
explicit `newId` / `now` parameters. -/
def repoCreate (providerId : String) (input : CreateInput)
    (newId : String) (now : Nat) (db : ServiceDb) :
    Except ApiError ServiceRow × ServiceDb :=
  match findByNameAndVersion db input.name input.version with
  | some _ =>
    (.error (.conflictError ("Service " ++ input.name ++ " version " ++
       input.version ++ " already exists")), db)
  | none =>
    let row : ServiceRow :=
      { id := newId
        registryId := input.registryId
        name := input.name
        version := input.version
        description := input.description
        providerId := providerId
        category := input.category
        tags := input.tags
        capabilities := input.capabilities
        endpoint := input.endpoint
        pricing := input.pricing
        sla := input.sla
        compliance := input.compliance
        status := .pendingApproval
        createdAt := now
        updatedAt := now
        publishedAt := none
        deprecatedAt := none
        suspensionReason := none }
    (.ok row, db ++ [row])

/-- Input of repository `update` (`part_001`, lines 138-234): every field
is optional; an absent field contributes no `SET` clause. -/
structure UpdateInput where
  description : Option String := none
  tags : Option (List String) := none
  capabilities : Option (List String) := none
  endpoint : Option Endpoint := none
  pricing : Option Pricing := none
  sla : Option SLA := none
  compliance : Option Compliance := none
  status : Option ServiceStatus := none
  suspensionReason : Option String := none
deriving DecidableEq, Repr

/-- Whether repository `update` builds at least one `SET` clause (the
source throws `DatabaseError("No fields to update")` otherwise). -/
def hasUpdates (input : UpdateInput) : Bool :=
  input.description.isSome || input.tags.isSome ||
    input.capabilities.isSome || input.endpoint.isSome ||
    input.pricing.isSome || input.sla.isSome || input.compliance.isSome ||
    input.status.isSome || input.suspensionReason.isSome

/-- The row produced by repository `update` for the matched row: each
provided field is overwritten; `updated_at = NOW()` is always appended;
`published_at = NOW()` is added exactly when the requested status is
`active` and `deprecated_at = NOW()` exactly when the requested status is
`deprecated`; every other column keeps its value. -/
def applyUpdate (row : ServiceRow) (input : UpdateInput) (now : Nat) :
    ServiceRow :=
  { row with
    description := input.description.getD row.description
    tags := input.tags.getD row.tags
    capabilities := input.capabilities.getD row.capabilities
    endpoint := input.endpoint.getD row.endpoint
    pricing := input.pricing.getD row.pricing
    sla := input.sla.getD row.sla
    compliance := input.compliance.getD row.compliance
    status := input.status.getD row.status
    suspensionReason :=
      match input.suspensionReason with
      | some r => some r
      | none => row.suspensionReason
    publishedAt :=
      if input.status == some .active then some now else row.publishedAt
    deprecatedAt :=
      if input.status == some .deprecated then some now
      else row.deprecatedAt
    updatedAt := now }

/-- Repository `update` (`part_001`): `DatabaseError` when no field is
provided; `NotFoundError` when no row matches the id; otherwise the
matched row is rewritten by `applyUpdate` and every other row is left
untouched. -/
def repoUpdate (serviceId : String) (input : UpdateInput) (now : Nat)
    (db : ServiceDb) : Except ApiError ServiceRow × ServiceDb :=
  if !hasUpdates input then
    (.error (.databaseError "No fields to update"), db)
  else
    match findRowById db serviceId with
    | none => (.error (.notFoundError "Service" serviceId), db)
    | some row =>
      let row2 := applyUpdate row input now
      (.ok row2,
       db.map (fun r => if r.id == serviceId then applyUpdate r input now
                        else r))

/-- Case-insensitive character equality, folding ASCII letters to lower
case (the semantics of SQL `ILIKE` for the character sets used here). -/
def charLower (c : Char) : Char := c.toLower

/-- Whether `pat` occurs as a prefix of `s` (on characters). -/
def listPre : List Char → List Char → Bool
  | [], _ => true
  | _ :: _, [] => false
  | a :: as, b :: bs => a == b && listPre as bs

/-- Whether `pat` occurs as a contiguous run inside `s` (on characters). -/
def listSub (pat : List Char) : List Char → Bool
  | [] => listPre pat []
  | c :: cs => listPre pat (c :: cs) || listSub pat cs

/-- `field ILIKE '%q%'`: case-insensitive containment of `q` in `field`. -/
def ilikeContains (field q : String) : Bool :=
  listSub (q.toList.map charLower) (field.toList.map charLower)

/-- Search parameters (`ServiceSearchParams`) read by repository `search`. -/
structure SearchParams where
  query : Option String := none
  category : Option String := none
  tags : Option (List String) := none
  status : Option ServiceStatus := none
  providerId : Option String := none
  complianceLevel : Option String := none
  minAvailabilityTenths : Option Nat := none
  maxLatency : Option Nat := none
  pricingModel : Option String := none
  limit : Option Nat := none
  offset : Option Nat := none
  sortBy : Option String := none
  sortOrder : Option String := none
deriving Repr

/-- The conjunction of `WHERE` conditions built by repository `search`
(`part_001`, lines 258-317).  Each provided parameter contributes one
conjunct; the status conjunct defaults to `status = active` when no
status was requested.  The query condition matches `name` or
`description` by `ILIKE '%q%'`, or a tag equal to the literal wildcard
pattern `%q%` (the SQL compares `$n = ANY(s.tags)` against the
already-wrapped pattern string). -/
def searchPred (params : SearchParams) (s : ServiceRow) : Bool :=
  (match params.query with
   | none => true
   | some q =>
     ilikeContains s.name q || ilikeContains s.description q ||
       s.tags.contains ("%" ++ q ++ "%")) &&
  (match params.category with
   | none => true
   | some c => s.category == c) &&
  (match params.tags with
   | none => true
   | some ts =>
     if ts.length > 0 then ts.any (fun t => s.tags.contains t) else true) &&
  (match params.status with
   | some st => s.status == st
   | none => s.status == .active) &&
  (match params.providerId with
   | none => true
   | some p => s.providerId == p) &&
  (match params.complianceLevel with
   | none => true
   | some cl => s.compliance.level == cl) &&
  (match params.minAvailabilityTenths with
   | none => true
   | some mn => s.sla.availabilityTenths ≥ mn) &&
  (match params.maxLatency with
   | none => true
   | some mx => s.sla.maxLatency ≤ mx) &&
  (match params.pricingModel with
   | none => true
   | some pm => s.pricing.model == pm)

/-- Sort key comparison for `ORDER BY`: `createdAt` (default, also the
`popularity` placeholder), `publishedAt` (absent timestamps compare as 0)
or `name`; ascending when `sortOrder` is `asc`, descending otherwise
(`desc` is the default). -/
def searchLe (sortBy sortOrder : String) (a b : ServiceRow) : Bool :=
  let asc :=
    match sortBy with
    | "name" => a.name ≤ b.name
    | "publishedAt" => a.publishedAt.getD 0 ≤ b.publishedAt.getD 0
    | _ => a.createdAt ≤ b.createdAt
  if sortOrder == "asc" then asc
  else
    match sortBy with
    | "name" => b.name ≤ a.name
    | "publishedAt" => b.publishedAt.getD 0 ≤ a.publishedAt.getD 0
    | _ => b.createdAt ≤ a.createdAt

/-- Insert a row into a list sorted by `le` (stable insertion used to
model `ORDER BY`). -/
def sortInsert (le : ServiceRow → ServiceRow → Bool) (x : ServiceRow) :
    List ServiceRow → List ServiceRow
  | [] => [x]
  | y :: ys => if le x y then x :: y :: ys else y :: sortInsert le x ys

/-- Insertion sort modelling the `ORDER BY` clause of `search`. -/
def sortRows (le : ServiceRow → ServiceRow → Bool) :
    List ServiceRow → List ServiceRow
  | [] => []
  | x :: xs => sortInsert le x (sortRows le xs)

/-- Result of repository `search`: the paginated page and the total count
of rows matching the `WHERE` clause. -/
structure SearchResult where
  services : List ServiceRow
  total : Nat
deriving Repr

/-- Repository `search` (`part_001`, lines 254-369): count every row
matching the `WHERE` conjunction, then return the page of size
`limit` (default 20) at `offset` (default 0) of the matching rows in
`ORDER BY` order (`sortBy` default `createdAt`, `sortOrder` default
`desc`). -/
def repoSearch (params : SearchParams) (db : ServiceDb) : SearchResult :=
  let matching := db.filter (searchPred params)
  let total := matching.length
  let sortBy := params.sortBy.getD "createdAt"
  let sortOrder := params.sortOrder.getD "desc"
  let ordered := sortRows (searchLe sortBy sortOrder) matching
  let limit := params.limit.getD 20
  let offset := params.offset.getD 0
  { services := (ordered.drop offset).take limit, total := total }

end Repository

section Controller

/-- User roles (`UserRole`), as consumed by the ownership checks. -/
inductive UserRole where
  | admin
  | provider
  | consumer
  | viewer
deriving DecidableEq, Repr

/-- `PUT /services/:id` — controller `updateService`
(`service.controller.ts`, lines 119-160): look the row up
(`NotFoundError` when absent), enforce ownership unless the caller is an
admin (`AuthorizationError`), reject a requested status differing from
the current one that is not a legal transition
(`ValidationError`, before any write), then delegate to repository
`update`. -/
def updateServiceEndpoint (userId : String) (userRole : UserRole)
    (serviceId : String) (input : UpdateInput) (now : Nat)
    (db : ServiceDb) : Except ApiError ServiceRow × ServiceDb :=
  match findRowById db serviceId with
  | none => (.error (.notFoundError "Service" serviceId), db)
  | some existing =>
    if userRole != .admin && existing.providerId != userId then
      (.error (.authorizationError "You can only update your own services"),
       db)
    else
      match input.status with
      | some newStatus =>
        if newStatus != existing.status &&
            !isValidStatusTransition existing.status newStatus then
          (.error (.validationError "Invalid status transition"), db)
        else
          repoUpdate serviceId input now db
      | none => repoUpdate serviceId input now db

/-- `PUT /services/:id/publish` — controller `publishService`
(`service.controller.ts`, lines 247-270): look the row up
(`NotFoundError` when absent) and call repository `update` with
`status = active`; no transition-legality check and no ownership check
appear on this path. -/
def publishServiceEndpoint (serviceId : String) (now : Nat)
    (db : ServiceDb) : Except ApiError ServiceRow × ServiceDb :=
  match findRowById db serviceId with
  | none => (.error (.notFoundError "Service" serviceId), db)
  | some _ =>
    repoUpdate serviceId { status := some .active } now db

end Controller

section TestOrchestrator

/-- Status of one health sub-check. -/
inductive TestStatus where
  | passed
  | failed
  | skipped
deriving DecidableEq, Repr

/-- One named health sub-check outcome. -/
structure SubTest where
  name : String
  status : TestStatus
deriving DecidableEq, Repr

/-- Aggregate health-check result (`TestResult`). -/
structure TestResult where
  passed : Bool
  total : Nat
  failed : Nat
  skipped : Nat
  tests : List SubTest
deriving DecidableEq, Repr

/-- A finding of the security scan. -/
structure Vulnerability where
  id : String
  severity : String
  title : String
deriving DecidableEq, Repr

/-- Security scan result (`SecurityScanResult`). -/
structure SecurityScanResult where
  passed : Bool
  vulnerabilities : List Vulnerability
deriving DecidableEq, Repr

/-- One performance metric with its threshold. -/
structure BenchMetric where
  name : String
  value : Nat
  threshold : Nat
  passed : Bool
deriving DecidableEq, Repr

/-- Performance benchmark result (`PerformanceBenchmark`). -/
structure PerformanceBenchmark where
  passed : Bool
  metrics : List BenchMetric
deriving DecidableEq, Repr

/-- Oracle outcomes of the five health sub-checks, which depend on the
live endpoint (`testEndpointAccessibility`, `testAuthentication`,
`testApiResponse`, `testErrorHandling`, `testResponseTime`). -/
structure HealthOutcomes where
  accessibility : TestStatus
  authentication : TestStatus
  apiResponse : TestStatus
  errorHandling : TestStatus
  responseTime : TestStatus
deriving DecidableEq, Repr

/-- Oracle measurements of the performance benchmarks: the averaged
response time in ms (`benchmarkResponseTime`) and the measured throughput
in requests per second (`benchmarkThroughput`). -/
structure BenchOutcomes where
  avgResponseTime : Nat
  throughput : Nat
deriving DecidableEq, Repr

/-- `TestOrchestrator.runHealthChecks` (`test-orchestrator.ts`, lines
73-138): run the five sub-checks in order; the category passes iff the
count of failed sub-checks is zero. -/
def runHealthChecks (h : HealthOutcomes) : TestResult :=
  let tests : List SubTest :=
    [⟨"Endpoint Accessibility", h.accessibility⟩,
     ⟨"Authentication", h.authentication⟩,
     ⟨"API Response", h.apiResponse⟩,
     ⟨"Error Handling", h.errorHandling⟩,
     ⟨"Response Time", h.responseTime⟩]
  let failed := (tests.filter (fun t => t.status == .failed)).length
  let skipped := (tests.filter (fun t => t.status == .skipped)).length
  { passed := failed == 0
    total := tests.length
    failed := failed
    skipped := skipped
    tests := tests }

/-- `TestOrchestrator.runSecurityScan` (`test-orchestrator.ts`, lines
143-213): accumulate findings — a `critical` finding `SEC-001` when the
deployment is production and the endpoint URL does not start with
`https://` — and pass iff the number of `critical` findings is zero. -/
def runSecurityScan (isProduction : Bool) (spec : ServiceSpec) :
    SecurityScanResult :=
  let vulnerabilities : List Vulnerability :=
    if isProduction &&
        !(listPre "https://".toList spec.endpoint.url.toList) then
      [⟨"SEC-001", "critical", "Insecure endpoint"⟩]
    else
      []
  { passed :=
      (vulnerabilities.filter (fun v => v.severity == "critical")).length
        == 0
    vulnerabilities := vulnerabilities }

/-- `TestOrchestrator.runPerformanceBenchmarks` (`test-orchestrator.ts`,
lines 218-270): average response time against the SLA `maxLatency`; a
throughput metric (threshold 500 req/s) only for the `text-generation`
and `embeddings` categories; an availability metric comparing the mocked
uptime `99.9` (here `999` tenths) against the SLA availability.  The
category passes iff every metric passed. -/
def runPerformanceBenchmarks (b : BenchOutcomes) (spec : ServiceSpec) :
    PerformanceBenchmark :=
  let responseMetric : BenchMetric :=
    { name := "Average Response Time"
      value := b.avgResponseTime
      threshold := spec.sla.maxLatency
      passed := b.avgResponseTime ≤ spec.sla.maxLatency }
  let throughputMetrics : List BenchMetric :=
    if spec.category == "text-generation" ||
        spec.category == "embeddings" then
      [{ name := "Throughput"
         value := b.throughput
         threshold := 500
         passed := b.throughput ≥ 500 }]
    else
      []
  let availabilityMetric : BenchMetric :=
    { name := "SLA Availability"
      value := 999
      threshold := spec.sla.availabilityTenths
      passed := 999 ≥ spec.sla.availabilityTenths }
  let metrics := responseMetric :: throughputMetrics ++ [availabilityMetric]
  { passed := metrics.all (fun m => m.passed)
    metrics := metrics }

/-- Combined result of `runTestSuite`. -/
structure TestSuiteResult where
  testResult : TestResult
  securityResult : SecurityScanResult
  benchmarkResult : PerformanceBenchmark
  overallPassed : Bool
deriving DecidableEq, Repr

/-- `TestOrchestrator.runTestSuite` (`test-orchestrator.ts`, lines
22-68): run the three categories (concurrently in the source; they share
no state) and report `overallPassed` as the conjunction of the three
category verdicts. -/
def runTestSuite (h : HealthOutcomes) (isProduction : Bool)
    (b : BenchOutcomes) (spec : ServiceSpec) : TestSuiteResult :=
  let testResult := runHealthChecks h
  let securityResult := runSecurityScan isProduction spec
  let benchmarkResult := runPerformanceBenchmarks b spec
  { testResult := testResult
    securityResult := securityResult
    benchmarkResult := benchmarkResult
    overallPassed :=
      testResult.passed && securityResult.passed && benchmarkResult.passed }

end TestOrchestrator

section Fixtures

/-- A plain HTTPS endpoint used by the sample specifications. -/
def sampleEndpoint : Endpoint :=
  { url := "https://api.example.com/v1", authentication := "api-key" }

/-- Sample specification of the happy-path scenario: `public` compliance
level and `standard` support level (no approval trigger), no attached
OpenAPI document. -/
def specPublic : ServiceSpec :=
  { name := "gpt-x"
    version := "1.0.0"
    description := "A text generation service"
    category := "text-generation"
    tags := ["llm"]
    capabilities := ["chat"]
    endpoint := sampleEndpoint
    pricing := { model := "pay-per-use" }
    sla := { availabilityTenths := 995, maxLatency := 200,
             supportLevel := "standard" }
    compliance := { level := "public", dataResidency := ["US"],
                    certifications := [] }
    hasOpenApiSpec := false }

/-- Sample specification with a `confidential` compliance level (an
approval trigger). -/
def specConfidential : ServiceSpec :=
  { specPublic with
    compliance := { level := "confidential", dataResidency := ["US"],
                    certifications := ["SOC2"] } }

/-- Collaborator outcomes for a fully passing `publishService` run. -/
def depsOk : PublishDeps :=
  { validationValid := true
    validationErrors := []
    openApiValid := true
    openApiErrors := []
    policyCompliant := true
    policyViolations := []
    registryId := "registry-001" }

/-- Collaborator outcomes where structural validation fails. -/
def depsInvalid : PublishDeps :=
  { depsOk with
    validationValid := false
    validationErrors := ["name is required"] }

/-- Collaborator outcomes where the policy check reports non-compliance. -/
def depsPolicyFail : PublishDeps :=
  { depsOk with
    policyCompliant := false
    policyViolations := ["data residency violation"] }

/-- Workflow activities that all succeed on the first attempt, with every
check passing corresponding to the mocked activity return values of the
source. -/
def okActs : WfActs :=
  { validate := fun _ => .ok true
    openApi := fun _ => .ok true
    policy := fun _ => .ok true
    register := fun _ => .ok "registry-id-12345"
    save := fun _ => .ok ()
    test := fun _ => .ok true
    security := fun _ => .ok true
    benchmark := fun _ => .ok true
    approvalCreate := .ok "approval-workflow-id"
    waitApproval := .ok true }

/-- Workflow activities where everything succeeds but the automated test
category reports failure. -/
def testFailActs : WfActs :=
  { okActs with test := fun _ => .ok false }

/-- Workflow activities where the registry client fails on the first two
attempts and succeeds on the third. -/
def registryOutageActs : WfActs :=
  { okActs with
    register := fun j =>
      if j ≤ 2 then .error "registry unavailable"
      else .ok "registry-id-12345" }

/-- A stored service row in the terminal `retired` status. -/
def rowRetired : ServiceRow :=
  { id := "svc-1"
    registryId := "registry-001"
    name := "gpt-x"
    version := "1.0.0"
    description := "A text generation service"
    providerId := "prov-1"
    category := "text-generation"
    tags := ["llm"]
    capabilities := ["chat"]
    endpoint := sampleEndpoint
    pricing := { model := "pay-per-use" }
    sla := { availabilityTenths := 995, maxLatency := 200,
             supportLevel := "standard" }
    compliance := { level := "public", dataResidency := ["US"],
                    certifications := [] }
    status := .retired
    createdAt := 10
    updatedAt := 10
    publishedAt := none
    deprecatedAt := none
    suspensionReason := none }

/-- A stored service row in the `active` status. -/
def rowActive : ServiceRow :=
  { rowRetired with id := "svc-2", name := "summarizer",
                    status := .active }

/-- A stored service row in the `suspended` status. -/
def rowSuspended : ServiceRow :=
  { rowRetired with id := "svc-3", name := "classifier",
                    status := .suspended }

end Fixtures

/-- Create-input matching `specPublic`, used for repository `create`. -/
def createInputGptx : CreateInput :=
  { registryId := "registry-001"
    name := "gpt-x"
    version := "1.0.0"
    description := "A text generation service"
    category := "text-generation"
    tags := ["llm"]
    capabilities := ["chat"]
    endpoint := sampleEndpoint
    pricing := { model := "pay-per-use" }
    sla := { availabilityTenths := 995, maxLatency := 200,
             supportLevel := "standard" }
    compliance := { level := "public", dataResidency := ["US"],
                    certifications := [] } }

/-- Update input requesting only `status = active`. -/
def inputSetActive : UpdateInput := { status := some .active }

/-- Update input with a description change and `status = active`. -/
def inputDescActive : UpdateInput :=
  { description := some "a new description", status := some .active }

/-- Search parameters with no filter at all (in particular no status). -/
def paramsNoStatus : SearchParams := {}

/-- Search parameters explicitly requesting suspended services. -/
def paramsSuspended : SearchParams := { status := some .suspended }

/-- If every attempt from `s` up to `k - 1` fails and attempt `k ≤ maxR`
succeeds, the retry loop started at attempt `s` returns that success after
exactly `k` attempts, having slept `2 ^ (j - 1)` seconds after each failed
attempt `j`. -/
theorem retryGo_ok_lemma {α : Type} (act : Nat → Except String α)
    (maxR : Nat) (a : α) (k : Nat) :
    ∀ (rem s : Nat) (le : Option String), s + rem = maxR + 1 →
      s ≤ k → k ≤ maxR →
      (∀ j, s ≤ j → j < k → ∃ e, act j = .error e) → act k = .ok a →
      retryGo act maxR s rem le =
        { result := .ok a, attempts := k
          delays := (List.range' s (k - s)).map (fun j => 2 ^ (j - 1)) } := by
  intro rem
  induction rem with
  | zero =>
    intro s le hsum hsk hkm hfail hok
    omega
  | succ n ih =>
    intro s le hsum hsk hkm hfail hok
    by_cases hk : s = k
    · subst hk
      simp [retryGo, hok, Nat.sub_self]
    · have hlt : s < k := lt_of_le_of_ne hsk hk
      obtain ⟨e, he⟩ := hfail s le_rfl hlt
      have hrest := ih (s + 1) (some e) (by omega) (by omega) hkm
        (fun j hj1 hj2 => hfail j (by omega) hj2) hok
      have hsm : s < maxR := by omega
      have hks : k - s = (k - (s + 1)) + 1 := by omega
      simp [retryGo, he, hrest, hsm, hks, List.range'_succ]

/-- If every attempt from `s` up to `maxR` fails, the retry loop started
at attempt `s` exhausts the budget: it reports the exhaustion error built
from the error of the final attempt, after exactly `maxR` attempts. -/
theorem retryGo_exhaust_lemma {α : Type} (act : Nat → Except String α)
    (maxR : Nat) (errs : Nat → String) :
    ∀ (rem s : Nat) (le : Option String), s + rem = maxR + 1 →
      s ≤ maxR →
      (∀ j, s ≤ j → j ≤ maxR → act j = .error (errs j)) →
      (retryGo act maxR s rem le).result =
          .error (retryExhaustMsg maxR (some (errs maxR))) ∧
        (retryGo act maxR s rem le).attempts = maxR := by
  intro rem
  induction rem with
  | zero =>
    intro s le hsum hsm hfail
    omega
  | succ n ih =>
    intro s le hsum hsm hfail
    have he := hfail s le_rfl hsm
    by_cases hk : s = maxR
    · subst hk
      have hn : n = 0 := by omega
      subst hn
      simp [retryGo, he, retryGo, Nat.add_sub_cancel]
    · have hrest := ih (s + 1) (some (errs s)) (by omega) (by omega)
        (fun j hj1 hj2 => hfail j (by omega) hj2)
      simp [retryGo, he, hrest.1, hrest.2]

/-- C6: a retryable step whose attempt `j` fails sleeps `2 ^ (j - 1)`
seconds before the next attempt (so an activity first succeeding at
attempt `k` records the delay schedule `[2^0, ..., 2^(k-2)]` and exactly
`k` attempts); registry registration is allowed 5 attempts while each
test-suite check is allowed 3; exhausting every attempt surfaces the
error of the last attempt inside the thrown exhaustion message; and a
registry client failing twice then succeeding on the third attempt makes
exactly 3 attempts, after which the workflow proceeds normally to the
`active` status update. -/
theorem c6_retry_backoff_policy {α : Type} (act : Nat → Except String α)
    (a : α) (k maxR : Nat) (h1 : 1 ≤ k) (h2 : k ≤ maxR)
    (hfail : ∀ j, 1 ≤ j → j < k → ∃ e, act j = .error e)
    (hok : act k = .ok a) :
    retryActivity act maxR =
      { result := .ok a, attempts := k
        delays := (List.range (k - 1)).map (fun i => 2 ^ i) } ∧
    registrationMaxAttempts = 5 ∧ testCheckMaxAttempts = 3 ∧
    testCheckMaxAttempts < registrationMaxAttempts ∧
    (∀ (act2 : Nat → Except String α) (errs : Nat → String) (m : Nat),
      1 ≤ m → (∀ j, 1 ≤ j → j ≤ m → act2 j = .error (errs j)) →
      (retryActivity act2 m).result =
        .error (retryExhaustMsg m (some (errs m)))) ∧
    retryActivity registryOutageActs.register registrationMaxAttempts =
      { result := .ok "registry-id-12345", attempts := 3,
        delays := [1, 2] } ∧
    (executeWorkflow registryOutageActs specPublic "svc-1" "prov-1").outcome
      = .ok { registryId := some "registry-id-12345",
              approvalRequired := false, approvalStatus := none } ∧
    WfEffect.updateStatus "svc-1" .active ∈
      (executeWorkflow registryOutageActs specPublic "svc-1" "prov-1").effects := by
  refine ⟨?_, rfl, rfl, by decide, ?_, by decide, by decide, by decide⟩
  · have h := retryGo_ok_lemma act maxR a k maxR 1 none (by omega) h1 h2
      hfail hok
    rw [retryActivity, h]
    have hd : (List.range' 1 (k - 1)).map (fun j => 2 ^ (j - 1)) =
        (List.range (k - 1)).map (fun i => 2 ^ i) := by
      rw [List.range'_eq_map_range, List.map_map]
      refine List.map_congr_left (fun i _ => ?_)
      simp [Function.comp, Nat.add_sub_cancel_left]
    rw [hd]
  · intro act2 errs m hm hfl
    exact (retryGo_exhaust_lemma act2 m errs m 1 none (by omega) hm hfl).1

/-- Witness for C6: the transient-registry-outage activity (two failures,
then success) makes exactly 3 attempts with delays of 1 and 2 seconds. -/
theorem c6_retry_backoff_policy_witness :
    (retryActivity registryOutageActs.register 5).attempts = 3 ∧
    (retryActivity registryOutageActs.register 5).delays = [1, 2] := by
  have h := c6_retry_backoff_policy registryOutageActs.register
    "registry-id-12345" 3 5 (by decide) (by decide)
    (fun j hj1 hj2 => ⟨"registry unavailable", by
      interval_cases j <;> decide⟩) (by decide)
  rw [h.1]
  exact ⟨rfl, by decide⟩

/-- C1 counterexample: a workflow run in which registration succeeded
(the registry id is recorded in the returned context) and the automated
test category then failed sets the status to `failed_validation` but
issues zero rollback invocations — not the exactly-one invocation the
claim requires.  Test failure returns the context normally, so the catch
block that performs the rollback is never reached. -/
theorem c1_rollback_counterexample :
    (executeWorkflow testFailActs specPublic "svc-1" "prov-1").outcome =
      .ok { registryId := some "registry-id-12345",
            approvalRequired := false, approvalStatus := none } ∧
    WfEffect.updateStatus "svc-1" .failedValidation ∈
      (executeWorkflow testFailActs specPublic "svc-1" "prov-1").effects ∧
    rollbackCount
      (executeWorkflow testFailActs specPublic "svc-1" "prov-1").effects
      = 0 ∧
    ¬ rollbackCount
        (executeWorkflow testFailActs specPublic "svc-1" "prov-1").effects
        = 1 := by
  refine ⟨by decide, by decide, by decide, by decide⟩

/-- C1 (amended): in every workflow run in which registry registration
succeeded and the test suite then reports failure, the status is set to
`failed_validation`, but the registry rollback operation is invoked zero
times (not once): the workflow returns the context normally on test
failure, and rollback happens only in the catch block for thrown
errors. -/
theorem c1_test_failure_no_rollback (acts : WfActs) (spec : ServiceSpec)
    (sid pid rid : String) (t s b : Bool)
    (hv : (retryActivity acts.validate 3).result = .ok true)
    (ho : (if spec.hasOpenApiSpec then (retryActivity acts.openApi 3).result
           else .ok true) = .ok true)
    (hp : (retryActivity acts.policy 3).result = .ok true)
    (hr : (retryActivity acts.register registrationMaxAttempts).result =
      .ok rid)
    (hs : (retryActivity acts.save 5).result = .ok ())
    (ht : (retryActivity acts.test testCheckMaxAttempts).result = .ok t)
    (hsec : (retryActivity acts.security testCheckMaxAttempts).result =
      .ok s)
    (hb : (retryActivity acts.benchmark testCheckMaxAttempts).result =
      .ok b)
    (hfailed : (t && s && b) = false) :
    (executeWorkflow acts spec sid pid).outcome =
      .ok { registryId := some rid, approvalRequired := false,
            approvalStatus := none } ∧
    WfEffect.updateStatus sid .failedValidation ∈
      (executeWorkflow acts spec sid pid).effects ∧
    rollbackCount (executeWorkflow acts spec sid pid).effects = 0 := by
  have hguard : (!t || !s || !b) = true := by
    cases t <;> cases s <;> cases b <;> simp_all
  simp [executeWorkflow, hv, ho, hp, hr, executeAfterRegistration, hs, ht,
        hsec, hb, hguard, rollbackCount]

/-- Witness for the amended C1 at the concrete test-failure activities. -/
theorem c1_test_failure_no_rollback_witness :
    (executeWorkflow testFailActs specPublic "w-1" "p-1").outcome =
      .ok { registryId := some "registry-id-12345",
            approvalRequired := false, approvalStatus := none } ∧
    WfEffect.updateStatus "w-1" .failedValidation ∈
      (executeWorkflow testFailActs specPublic "w-1" "p-1").effects ∧
    rollbackCount (executeWorkflow testFailActs specPublic "w-1" "p-1").effects
      = 0 :=
  c1_test_failure_no_rollback testFailActs specPublic "w-1" "p-1"
    "registry-id-12345" false true true (by decide) (by decide) (by decide)
    (by decide) (by decide) (by decide) (by decide) (by decide) (by decide)

/-- C2 counterexample: the publish endpoint (`PUT /services/:id/publish`)
moves a `retired` service to `active` with no legality check — an illegal
transition (illegal per the modelled status table) applied silently by a
status-changing operation, contradicting the universal part of the
claim. -/
theorem c2_transition_counterexample :
    isValidStatusTransition .retired .active = false ∧
    ((publishServiceEndpoint "svc-1" 100 [rowRetired]).2.map
        (fun r => r.status)) = [ServiceStatus.active] ∧
    (∃ row, (publishServiceEndpoint "svc-1" 100 [rowRetired]).1 =
      .ok row ∧ row.status = .active) := by
  refine ⟨by decide, by decide, ?_⟩
  exact ⟨applyUpdate rowRetired { status := some .active } 100,
    by decide, by decide⟩

/-- C2 (amended): the transition-legality guarantee holds for the
service-update API only: `updateService` rejects a requested status that
differs from the current one and is not a legal transition per the
(spec-modelled) status table with a `ValidationError` and leaves the
database unchanged — in particular a `retired` service cannot be moved to
`active` through it.  The universal part of the claim fails: the
publish/deprecate/suspend endpoints apply their status change with no
legality check (see the counterexample). -/
theorem c2_update_endpoint_rejects_illegal (userId : String)
    (role : UserRole) (sid : String) (input : UpdateInput) (now : Nat)
    (db : ServiceDb) (row : ServiceRow) (newStatus : ServiceStatus)
    (hfound : findRowById db sid = some row)
    (hown : role = .admin ∨ row.providerId = userId)
    (hstat : input.status = some newStatus)
    (hne : newStatus ≠ row.status)
    (hillegal : isValidStatusTransition row.status newStatus = false) :
    updateServiceEndpoint userId role sid input now db =
      (.error (.validationError "Invalid status transition"), db) := by
  have hg : (role != .admin && row.providerId != userId) = false := by
    rcases hown with h | h
    · subst h; simp
    · simp [h]
  have hne2 : (newStatus != row.status) = true := by
    simp [bne_iff_ne, hne]
  simp [updateServiceEndpoint, hfound, hg, hstat, hne2, hillegal]

/-- Witness for the amended C2: an attempt to move the retired sample row
to `active` through the update endpoint is rejected with a
`ValidationError` and the stored row is unchanged. -/
theorem c2_update_endpoint_rejects_illegal_witness :
    updateServiceEndpoint "prov-1" .provider "svc-1" inputSetActive 100
      [rowRetired] =
      (.error (.validationError "Invalid status transition"),
       [rowRetired]) :=
  c2_update_endpoint_rejects_illegal "prov-1" .provider "svc-1"
    inputSetActive 100 [rowRetired] rowRetired .active (by decide)
    (Or.inr (by decide)) (by decide) (by decide) (by decide)

/-- C3 counterexample: submitting the same `(name, version)` specification
twice through the publishing pipeline does not reject the second
submission — the second invocation performs a registry call, completes
with status `active` (no `ConflictError`), and leaves two stored rows
with the same `(name, version)` pair, violating the uniqueness
invariant. -/
theorem c3_conflict_counterexample :
    registryCallCount
      (publishService depsOk "p1" "s2" specPublic
        (publishService depsOk "p1" "s1" specPublic [] 0).db 0).effects
      = 1 ∧
    (publishService depsOk "p1" "s2" specPublic
        (publishService depsOk "p1" "s1" specPublic [] 0).db 0).result.status
      = .active ∧
    ((publishService depsOk "p1" "s2" specPublic
        (publishService depsOk "p1" "s1" specPublic [] 0).db 0).db.filter
      (fun r => r.name == "gpt-x" && r.version == "1.0.0")).length = 2 := by
  refine ⟨by decide, by decide, by decide⟩

/-- C3 (amended): the duplicate check lives in the repository layer only:
repository `create` rejects a second submission with an existing
`(name, version)` with a `ConflictError` and leaves the store unchanged
(and `create` itself performs no registry interaction — the registry id
is an input to it), while a fresh `(name, version)` is inserted with
status `pending_approval`.  The pipeline `publishService` performs no
such check, so duplicates can be created through it (see the
counterexample). -/
theorem c3_repo_create_conflict (pid : String) (input : CreateInput)
    (newId : String) (now : Nat) (db : ServiceDb) :
    (∀ ex, findByNameAndVersion db input.name input.version = some ex →
      repoCreate pid input newId now db =
        (.error (.conflictError ("Service " ++ input.name ++ " version " ++
          input.version ++ " already exists")), db)) ∧
    (findByNameAndVersion db input.name input.version = none →
      ∃ row, repoCreate pid input newId now db = (.ok row, db ++ [row]) ∧
        row.name = input.name ∧ row.version = input.version ∧
        row.status = .pendingApproval) := by
  constructor
  · intro ex h
    simp [repoCreate, h]
  · intro h
    simp only [repoCreate, h]
    exact ⟨_, rfl, rfl, rfl, rfl⟩

/-- Witness for the amended C3: creating `gpt-x 1.0.0` through the
repository while a row with that `(name, version)` already exists is
rejected with a `ConflictError` and the store is unchanged. -/
theorem c3_repo_create_conflict_witness :
    repoCreate "prov-2" createInputGptx "id-9" 50 [rowRetired] =
      (.error (.conflictError
        "Service gpt-x version 1.0.0 already exists"), [rowRetired]) :=
  (c3_repo_create_conflict "prov-2" createInputGptx "id-9" 50
    [rowRetired]).1 rowRetired (by decide)

/-- C4: whenever structural validation fails, `publishService` returns
status `failed_validation` and the registry client is never invoked in
that invocation (zero registry calls in the effect trace); the database
is also left untouched. -/
theorem c4_validation_failure_no_registry (deps : PublishDeps)
    (pid sid : String) (spec : ServiceSpec) (db : ServiceDb) (now : Nat)
    (hv : deps.validationValid = false) :
    (publishService deps pid sid spec db now).result.status =
      .failedValidation ∧
    registryCallCount (publishService deps pid sid spec db now).effects
      = 0 ∧
    (publishService deps pid sid spec db now).db = db := by
  simp [publishService, hv, registryCallCount]

/-- Witness for C4 at a concrete failing-validation run. -/
theorem c4_validation_failure_no_registry_witness :
    (publishService depsInvalid "p1" "s1" specPublic [] 0).result.status =
      .failedValidation ∧
    registryCallCount
      (publishService depsInvalid "p1" "s1" specPublic [] 0).effects = 0 ∧
    (publishService depsInvalid "p1" "s1" specPublic [] 0).db = [] :=
  c4_validation_failure_no_registry depsInvalid "p1" "s1" specPublic [] 0
    (by decide)

/-- C5: approval is required iff the compliance classification is
`confidential` or `restricted` or the SLA support tier is `enterprise`;
a specification with none of these triggers that passes validation,
OpenAPI and policy reaches status `active` with zero
`createApprovalWorkflow` invocations; a specification with a trigger that
passes those phases records exactly one `createApprovalWorkflow`
invocation and is left in `pending_approval` (not activated) in that
invocation. -/
theorem c5_approval_gating :
    (∀ spec : ServiceSpec, requiresManualApproval spec =
      (spec.compliance.level == "confidential" ||
       spec.compliance.level == "restricted" ||
       spec.sla.supportLevel == "enterprise")) ∧
    (∀ (deps : PublishDeps) (pid sid : String) (spec : ServiceSpec)
       (db : ServiceDb) (now : Nat),
      deps.validationValid = true →
      (spec.hasOpenApiSpec && !deps.openApiValid) = false →
      deps.policyCompliant = true →
      requiresManualApproval spec = false →
      (publishService deps pid sid spec db now).result.status = .active ∧
      approvalWorkflowCount
        (publishService deps pid sid spec db now).effects = 0) ∧
    (∀ (deps : PublishDeps) (pid sid : String) (spec : ServiceSpec)
       (db : ServiceDb) (now : Nat),
      deps.validationValid = true →
      (spec.hasOpenApiSpec && !deps.openApiValid) = false →
      deps.policyCompliant = true →
      requiresManualApproval spec = true →
      approvalWorkflowCount
        (publishService deps pid sid spec db now).effects = 1 ∧
      (publishService deps pid sid spec db now).result.status =
        .pendingApproval ∧
      (publishService deps pid sid spec db now).result.status ≠
        .active) := by
  refine ⟨?_, ?_, ?_⟩
  · intro spec
    cases h1 : (spec.compliance.level == "confidential" ||
        spec.compliance.level == "restricted") <;>
      cases h2 : (spec.sla.supportLevel == "enterprise") <;>
        simp_all [requiresManualApproval, Bool.or_assoc]
  · intro deps pid sid spec db now hv ho hp hreq
    simp [publishService, hv, ho, hp, hreq, runAutomatedTests,
          approvalWorkflowCount]
  · intro deps pid sid spec db now hv ho hp hreq
    simp [publishService, hv, ho, hp, hreq, runAutomatedTests,
          approvalWorkflowCount]

/-- Witness for C5: the `public`/`standard` sample specification activates
without any approval workflow, and the `confidential` sample records
exactly one approval workflow and stays `pending_approval`. -/
theorem c5_approval_gating_witness :
    ((publishService depsOk "p1" "s1" specPublic [] 0).result.status =
        .active ∧
      approvalWorkflowCount
        (publishService depsOk "p1" "s1" specPublic [] 0).effects = 0) ∧
    (approvalWorkflowCount
        (publishService depsOk "p1" "s3" specConfidential [] 0).effects
        = 1 ∧
      (publishService depsOk "p1" "s3" specConfidential [] 0).result.status
        = .pendingApproval ∧
      (publishService depsOk "p1" "s3" specConfidential [] 0).result.status
        ≠ .active) :=
  ⟨c5_approval_gating.2.1 depsOk "p1" "s1" specPublic [] 0 (by decide)
      (by decide) (by decide) (by decide),
   c5_approval_gating.2.2 depsOk "p1" "s3" specConfidential [] 0
      (by decide) (by decide) (by decide) (by decide)⟩

/-- C8: when `publishService` stops with `failed_validation` because
structural or OpenAPI validation failed, or with `suspended` because the
policy check reported non-compliance, the database is returned unchanged
— so if the freshly generated service id had no stored record before the
call (it never does: ids are fresh UUIDs), looking it up afterwards still
yields nothing. -/
theorem c8_no_record_on_early_failure (deps : PublishDeps)
    (pid sid : String) (spec : ServiceSpec) (db : ServiceDb) (now : Nat)
    (hcause : deps.validationValid = false ∨
      (spec.hasOpenApiSpec = true ∧ deps.openApiValid = false) ∨
      deps.policyCompliant = false) :
    (publishService deps pid sid spec db now).db = db ∧
    ((publishService deps pid sid spec db now).result.status =
        .failedValidation ∨
      (publishService deps pid sid spec db now).result.status =
        .suspended) ∧
    (findRowById db sid = none →
      findRowById (publishService deps pid sid spec db now).db sid =
        none) := by
  cases hv : deps.validationValid with
  | false => simp [publishService, hv]
  | true =>
    rcases hcause with h | ⟨hoa, hov⟩ | hpc
    · exact absurd hv (by simp [h])
    · simp [publishService, hv, hoa, hov]
    · cases hg : (spec.hasOpenApiSpec && !deps.openApiValid) with
      | true => simp [publishService, hv, hg]
      | false => simp [publishService, hv, hg, hpc]

/-- Witness for C8 at a concrete policy-rejected run. -/
theorem c8_no_record_on_early_failure_witness :
    (publishService depsPolicyFail "p1" "s1" specPublic [] 0).db = [] ∧
    ((publishService depsPolicyFail "p1" "s1" specPublic [] 0).result.status
        = .failedValidation ∨
      (publishService depsPolicyFail "p1" "s1" specPublic [] 0).result.status
        = .suspended) ∧
    (findRowById [] "s1" = none →
      findRowById (publishService depsPolicyFail "p1" "s1" specPublic
        [] 0).db "s1" = none) :=
  c8_no_record_on_early_failure depsPolicyFail "p1" "s1" specPublic [] 0
    (Or.inr (Or.inr (by decide)))

/-- C7: `runTestSuite` reports `overallPassed` as the logical AND of the
health-check, security-scan and performance-benchmark verdicts, and the
security scan passes iff it records zero findings of `critical`
severity. -/
theorem c7_testsuite_conjunction :
    (∀ (h : HealthOutcomes) (p : Bool) (b : BenchOutcomes)
       (spec : ServiceSpec),
      (runTestSuite h p b spec).overallPassed =
        ((runTestSuite h p b spec).testResult.passed &&
         (runTestSuite h p b spec).securityResult.passed &&
         (runTestSuite h p b spec).benchmarkResult.passed)) ∧
    (∀ (p : Bool) (spec : ServiceSpec),
      (runSecurityScan p spec).passed = true ↔
        ((runSecurityScan p spec).vulnerabilities.filter
          (fun v => v.severity == "critical")).length = 0) := by
  constructor
  · intro h p b spec
    rfl
  · intro p spec
    simp [runSecurityScan]

/-- C10: a repository update invocation that finds its row rewrites
exactly that row through `applyUpdate` (every other row is untouched),
and `applyUpdate` modifies only the fields present in the input —
`updated_at` is always refreshed, `published_at` is set to the current
time exactly when the requested status is `active`, `deprecated_at`
exactly when the requested status is `deprecated`, each absent field and
every other column (id, registry id, name, version, provider, category,
created_at) keeps its value. -/
theorem c10_update_frame (sid : String) (input : UpdateInput) (now : Nat)
    (db : ServiceDb) (row : ServiceRow)
    (hfound : findRowById db sid = some row)
    (hupd : hasUpdates input = true) :
    (repoUpdate sid input now db).1 = .ok (applyUpdate row input now) ∧
    (repoUpdate sid input now db).2 =
      db.map (fun r => if r.id == sid then applyUpdate r input now
                       else r) ∧
    (applyUpdate row input now).updatedAt = now ∧
    (applyUpdate row input now).publishedAt =
      (if input.status == some .active then some now
       else row.publishedAt) ∧
    (applyUpdate row input now).deprecatedAt =
      (if input.status == some .deprecated then some now
       else row.deprecatedAt) ∧
    (applyUpdate row input now).description =
      input.description.getD row.description ∧
    (applyUpdate row input now).tags = input.tags.getD row.tags ∧
    (applyUpdate row input now).capabilities =
      input.capabilities.getD row.capabilities ∧
    (applyUpdate row input now).endpoint =
      input.endpoint.getD row.endpoint ∧
    (applyUpdate row input now).pricing =
      input.pricing.getD row.pricing ∧
    (applyUpdate row input now).sla = input.sla.getD row.sla ∧
    (applyUpdate row input now).compliance =
      input.compliance.getD row.compliance ∧
    (applyUpdate row input now).status = input.status.getD row.status ∧
    (applyUpdate row input now).suspensionReason =
      (match input.suspensionReason with
       | some r => some r
       | none => row.suspensionReason) ∧
    (applyUpdate row input now).id = row.id ∧
    (applyUpdate row input now).registryId = row.registryId ∧
    (applyUpdate row input now).name = row.name ∧
    (applyUpdate row input now).version = row.version ∧
    (applyUpdate row input now).providerId = row.providerId ∧
    (applyUpdate row input now).category = row.category ∧
    (applyUpdate row input now).createdAt = row.createdAt := by
  refine ⟨?_, ?_, rfl, rfl, rfl, rfl, rfl, rfl, rfl, rfl, rfl, rfl, rfl,
    rfl, rfl, rfl, rfl, rfl, rfl, rfl, rfl⟩
  · simp [repoUpdate, hupd, hfound]
  · simp [repoUpdate, hupd, hfound]

/-- Witness for C10: updating the active sample row with a description
change and `status = active` rewrites exactly that row and stamps
`published_at`. -/
theorem c10_update_frame_witness :
    (repoUpdate "svc-2" inputDescActive 200 [rowActive]).1 =
      .ok (applyUpdate rowActive inputDescActive 200) ∧
    (applyUpdate rowActive inputDescActive 200).updatedAt = 200 ∧
    (applyUpdate rowActive inputDescActive 200).publishedAt = some 200 ∧
    (applyUpdate rowActive inputDescActive 200).name = rowActive.name := by
  have h := c10_update_frame "svc-2" inputDescActive 200 [rowActive]
    rowActive (by decide) (by decide)
  exact ⟨h.1, h.2.2.1, by rw [h.2.2.2.1]; decide,
    h.2.2.2.2.2.2.2.2.2.2.2.2.2.2.2.2.1⟩

/-- Membership in `sortInsert`: the inserted element or an element of the
original list. -/
theorem mem_sortInsert (le : ServiceRow → ServiceRow → Bool)
    (x a : ServiceRow) (l : List ServiceRow) :
    a ∈ sortInsert le x l ↔ a = x ∨ a ∈ l := by
  induction l with
  | nil => simp [sortInsert]
  | cons y ys ih =>
    simp only [sortInsert]
    split
    · simp [List.mem_cons]
    · simp [List.mem_cons, ih]
      tauto

/-- Sorting for `ORDER BY` does not change the set of rows. -/
theorem mem_sortRows (le : ServiceRow → ServiceRow → Bool)
    (a : ServiceRow) (l : List ServiceRow) :
    a ∈ sortRows le l ↔ a ∈ l := by
  induction l with
  | nil => simp [sortRows]
  | cons y ys ih =>
    simp [sortRows, mem_sortInsert, ih]

/-- Every row of a search result page satisfies the `WHERE` conjunction
and comes from the table. -/
theorem mem_search_services (params : SearchParams) (db : ServiceDb)
    (s : ServiceRow) (h : s ∈ (repoSearch params db).services) :
    searchPred params s = true ∧ s ∈ db := by
  unfold repoSearch at h
  simp only at h
  have h1 : s ∈ sortRows
      (searchLe (params.sortBy.getD "createdAt")
        (params.sortOrder.getD "desc"))
      (db.filter (searchPred params)) :=
    List.mem_of_mem_drop (List.mem_of_mem_take h)
  rw [mem_sortRows] at h1
  exact ⟨(List.mem_filter.mp h1).2, (List.mem_filter.mp h1).1⟩

/-- With no requested status, the `WHERE` conjunction contains the default
`status = active` conjunct. -/
theorem searchPred_active_of_none (params : SearchParams) (s : ServiceRow)
    (hnone : params.status = none) (h : searchPred params s = true) :
    s.status = .active := by
  unfold searchPred at h
  rw [hnone] at h
  simp only [Bool.and_eq_true, beq_iff_eq] at h
  exact h.1.1.1.1.1.2

/-- A row matching the `WHERE` conjunction in a non-`active` status can
only have matched an explicitly requested status. -/
theorem searchPred_some_of_ne (params : SearchParams) (s : ServiceRow)
    (h : searchPred params s = true) (hne : s.status ≠ .active) :
    params.status = some s.status := by
  cases hps : params.status with
  | none => exact absurd (searchPred_active_of_none params s hps h) hne
  | some st =>
    unfold searchPred at h
    rw [hps] at h
    simp only [Bool.and_eq_true, beq_iff_eq] at h
    rw [h.1.1.1.1.1.2]

/-- C9: a search invocation with no status filter returns only `active`
services, its reported total counts exactly the `active` rows matching
the filters, and a service in any other status appears in a result page
only when that status was explicitly requested. -/
theorem c9_search_defaults_to_active :
    (∀ (params : SearchParams) (db : ServiceDb), params.status = none →
      (∀ s ∈ (repoSearch params db).services, s.status = .active) ∧
      (repoSearch params db).total =
        (db.filter (fun r => r.status == .active &&
          searchPred params r)).length) ∧
    (∀ (params : SearchParams) (db : ServiceDb) (s : ServiceRow),
      s ∈ (repoSearch params db).services → s.status ≠ .active →
      params.status = some s.status) := by
  constructor
  · intro params db hnone
    constructor
    · intro s hs
      exact searchPred_active_of_none params s hnone
        (mem_search_services params db s hs).1
    · have hcong : ∀ r ∈ db, searchPred params r =
          (r.status == .active && searchPred params r) := by
        intro r _
        cases hp : searchPred params r with
        | false => simp
        | true =>
          have := searchPred_active_of_none params r hnone hp
          simp [this]
      have : db.filter (searchPred params) =
          db.filter (fun r => r.status == .active &&
            searchPred params r) := List.filter_congr hcong
      simp [repoSearch, this]
  · intro params db s hs hne
    exact searchPred_some_of_ne params s
      (mem_search_services params db s hs).1 hne

/-- Witness for C9: with no status filter the sample search returns the
active row only, and the suspended row is returned only by the search
that explicitly requests `suspended`. -/
theorem c9_search_defaults_to_active_witness :
    rowActive.status = .active ∧
    paramsSuspended.status = some rowSuspended.status :=
  ⟨(c9_search_defaults_to_active.1 paramsNoStatus
      [rowActive, rowSuspended] rfl).1 rowActive (by decide),
   c9_search_defaults_to_active.2 paramsSuspended
      [rowActive, rowSuspended] rowSuspended (by decide) (by decide)⟩
